import Mathlib

/-!
Verification model of the DataBridge ERP lambda pipeline
(`ingestion_handler.py`, `transform_handler.py`, `upload_handler.py`,
`status_handler.py`, `connectors/tcp_connector.py`).

Bytes are modelled as `List Nat`; external collaborators (S3, DynamoDB,
the Lambda dispatch, the network peer and the pandas/pyarrow library)
are modelled as explicit oracle parameters, and every externally visible
write performed by a handler is recorded as an `Effect` in program order.
-/

namespace DataBridge

/-- Byte strings are lists of byte values. -/
abbrev Bytes := List Nat

instance {ε α : Type} [DecidableEq ε] [DecidableEq α] : DecidableEq (Except ε α) :=
  fun a b =>
    match a, b with
    | .ok x, .ok y =>
        if h : x = y then .isTrue (by rw [h]) else .isFalse (by intro hh; cases hh; exact h rfl)
    | .error x, .error y =>
        if h : x = y then .isTrue (by rw [h]) else .isFalse (by intro hh; cases hh; exact h rfl)
    | .ok _, .error _ => .isFalse (by intro hh; cases hh)
    | .error _, .ok _ => .isFalse (by intro hh; cases hh)

/-- Python truthiness of an optional string (`None` and `""` are falsy). -/
def truthyStr : Option String → Bool
  | none => false
  | some s => !s.isEmpty

/-- Python truthiness of an optional integer (`None` and `0` are falsy). -/
def truthyNat : Option Nat → Bool
  | none => false
  | some n => n != 0

/-- Python truthiness of an optional byte string (`None` and `b""` are falsy). -/
def truthyBytes : Option Bytes → Bool
  | none => false
  | some b => !b.isEmpty

/-- ASCII lowering of a string, as `str.lower()` does on ASCII data. -/
def pyLower (s : String) : String :=
  String.mk (s.data.map Char.toLower)

/-- Split a character list on a separator character; like Python
`str.split(sep)`, the empty input gives one empty field. -/
def splitOnChar (sep : Char) : List Char → List (List Char)
  | [] => [[]]
  | c :: rest =>
      let r := splitOnChar sep rest
      if c == sep then [] :: r
      else
        match r with
        | h :: t => (c :: h) :: t
        | [] => [[c]]

/-- `s.split(sep)[-1]` for a single-character separator: the text after the
last occurrence of `sep` (the whole string when `sep` does not occur). -/
def lastSplitPart (sep : Char) (s : String) : String :=
  String.mk ((splitOnChar sep s.data).getLastD [])

/-- `os.path.basename` for POSIX paths: the text after the last slash. -/
def pyBasename (p : String) : String :=
  lastSplitPart '/' p

/-- Index of the last dot of `cs` that has some non-dot character before it,
mirroring how `os.path.splitext` locates the extension separator
(leading dots of the name never start an extension). -/
def lastExtDot (cs : List Char) : Option Nat :=
  ((List.range cs.length).filter
    (fun i => decide (cs.getD i ' ' = '.') && (cs.take i).any (fun c => c != '.'))).getLast?

/-- Root part of `os.path.splitext(filename)[0]` for a path-free filename. -/
def pySplitextRoot (s : String) : String :=
  match lastExtDot s.data with
  | none => s
  | some i => String.mk (s.data.take i)

/-- Python `needle in hay` on byte strings (contiguous-subsequence test). -/
def containsSub (hay needle : Bytes) : Bool :=
  hay.tails.any (fun t => needle.isPrefixOf t)

/-! ## Job records -/

/-- Job lifecycle status values stored in the `status` attribute. -/
inductive JobStatus
  | PENDING
  | PROCESSING
  | TRANSFORMING
  | COMPLETED
  | FAILED
deriving DecidableEq

/-- String form of a status as persisted in DynamoDB. -/
def JobStatus.str : JobStatus → String
  | .PENDING => "PENDING"
  | .PROCESSING => "PROCESSING"
  | .TRANSFORMING => "TRANSFORMING"
  | .COMPLETED => "COMPLETED"
  | .FAILED => "FAILED"

/-- `COMPLETED` and `FAILED` are the terminal statuses. -/
def JobStatus.isTerminal : JobStatus → Bool
  | .COMPLETED => true
  | .FAILED => true
  | _ => false

/-- Source configuration map (`config` of an ingestion request); every field
is optional, matching the Python `dict.get` accesses in the handlers. -/
structure SourceConfig where
  host : Option String := none
  port : Option Nat := none
  file_path : Option String := none
  url : Option String := none
  username : Option String := none
  password : Option String := none
  send_data : Option String := none
  timeout : Option Nat := none
  filename : Option String := none
deriving DecidableEq

/-- A persisted job record (item of the `databridge-job-status` table). -/
structure JobRecord where
  job_id : String
  created_at : String
  updated_at : String
  status : JobStatus
  source_type : String
  source_config : Option SourceConfig := none
  filename : Option String := none
  table_name : Option String := none
  progress : Nat
  message : String
  ttl : Nat := 0
  output_key : Option String := none
  row_count : Option Nat := none
  column_count : Option Nat := none
deriving DecidableEq

/-! ## Externally visible writes -/

/-- An externally visible write performed by a handler, in program order:
DynamoDB puts/updates, S3 puts and asynchronous Lambda invocations. -/
inductive Effect
  | putJob (record : JobRecord)
  | updateJob (job_id created_at : String) (status : JobStatus)
      (progress : Nat) (message : String) (updated_at : String)
  | updateOutput (job_id created_at : String) (output_key : String)
      (row_count column_count : Nat)
  | putRaw (key : String) (body : Bytes)
  | putParquet (key : String) (body : Bytes) (job_id source_file : String)
      (row_count column_count : Nat) (processing_date : String)
  | invokeTransform (job_id created_at s3_key table_name : String)
deriving DecidableEq

/-- Is this effect a DynamoDB `put_item` of a job record? -/
def Effect.isPutJob : Effect → Bool
  | .putJob _ => true
  | _ => false

/-- Is this effect an S3 `put_object` into the raw bucket? -/
def Effect.isPutRaw : Effect → Bool
  | .putRaw _ _ => true
  | _ => false

/-- Apply one effect to the stored record of the job keyed by
`(jid, cat)`; effects keyed to other jobs and non-DynamoDB effects leave
it unchanged.  DynamoDB `update_item` upserts, so an update of an absent
record creates one carrying only the written attributes. -/
def applyEffect (jid cat : String) (cur : Option JobRecord) : Effect → Option JobRecord
  | .putJob r => if r.job_id = jid ∧ r.created_at = cat then some r else cur
  | .updateJob j c st p m now =>
      if j = jid ∧ c = cat then
        match cur with
        | some r => some { r with status := st, progress := p, message := m, updated_at := now }
        | none => some { job_id := j, created_at := c, updated_at := now, status := st,
                         source_type := "", progress := p, message := m }
      else cur
  | .updateOutput j c key rows cols =>
      if j = jid ∧ c = cat then
        match cur with
        | some r => some { r with output_key := some key, row_count := some rows, column_count := some cols }
        | none => cur
      else cur
  | _ => cur

/-- Fold a list of effects over the stored record of job `(jid, cat)`. -/
def applyEffects (jid cat : String) (cur : Option JobRecord) (effs : List Effect) : Option JobRecord :=
  effs.foldl (applyEffect jid cat) cur

/-! ## TCP connector (`connectors/tcp_connector.py`)

The peer side of the socket is modelled by a schedule of network events:
each `socket.recv` call observes the next event.  A `chunk` event is the
next run of bytes the kernel has buffered (a `recv` takes at most its
requested size from it, the rest staying buffered), a `tmout` event is a
`socket.timeout` being raised, and an exhausted schedule (or an empty
chunk) is the peer having closed the connection, for which `recv`
returns zero bytes. -/

/-- One network event observed by a `socket.recv` call. -/
inductive NetEv
  | chunk (bs : Bytes)
  | tmout
deriving DecidableEq

/-- The schedule of network events a socket will deliver. -/
abbrev Sched := List NetEv

/-- Errors a connector call can raise.  `typeError` is the `TypeError`
that `socket.sendall` raises when handed a `str` instead of bytes. -/
inductive TcpErr
  | timeout
  | connFailed
  | sendFailed
  | typeError
  | notConnected
deriving DecidableEq

/-- A Python value handed to `receive_data` as `send_data`: the JSON API
always produces a `str`, while direct callers may pass bytes.
`socket.sendall` accepts only the latter. -/
inductive SendData
  | pyStr (s : String)
  | pyBytes (b : Bytes)
deriving DecidableEq

/-- Python truthiness of an optional send payload (`None`, `""` and
`b""` are falsy). -/
def truthySend : Option SendData → Bool
  | none => false
  | some (.pyStr s) => !s.isEmpty
  | some (.pyBytes b) => !b.isEmpty

/-- Total number of buffered bytes in a schedule. -/
def schedBytes (s : Sched) : Nat :=
  (s.map (fun e => match e with | .chunk bs => bs.length | .tmout => 0)).sum

/-- One `socket.recv(size)` call: returns up to `size` bytes of the next
buffered chunk (zero bytes when the peer has closed) together with the
remaining schedule, or raises `timeout`. -/
def recvOne (size : Nat) (s : Sched) : Except TcpErr (Bytes × Sched) :=
  match s with
  | [] => .ok ([], [])
  | .tmout :: rest => .error .timeout
  | .chunk bs :: rest =>
      .ok (bs.take size, if (bs.drop size).isEmpty then rest else .chunk (bs.drop size) :: rest)

/-- Push undelivered bytes of a partially consumed chunk back onto the
front of the schedule (the kernel keeps them buffered). -/
def pushback (rem : Bytes) (rest : Sched) : Sched :=
  match rem with
  | [] => rest
  | d :: ds => .chunk (d :: ds) :: rest

/-- The until-close receive loop of `TCPConnector.receive` (the
`size`-falsy branch): gather `recv(buffer_size)` chunks until a
zero-length read or a caught `socket.timeout` breaks the loop. -/
def recvUntilClose (bufsize : Nat) (s : Sched) : Bytes :=
  match s with
  | [] => []
  | .tmout :: _ => []
  | .chunk bs :: rest =>
      match h : bs.take bufsize with
      | [] => []
      | t :: ts => (t :: ts) ++ recvUntilClose bufsize (pushback (bs.drop bufsize) rest)
termination_by schedBytes s + s.length
decreasing_by
  have hbuf : bufsize ≠ 0 := by
    intro hz; rw [hz] at h; simp at h
  have hbs : bs ≠ [] := by
    intro hz; rw [hz] at h; simp at h
  have hlen : bs.length ≠ 0 := fun hz => hbs (List.eq_nil_of_length_eq_zero hz)
  have hdl : (bs.drop bufsize).length = bs.length - bufsize := List.length_drop bufsize bs
  cases hD : bs.drop bufsize with
  | nil =>
    simp only [pushback, hD, schedBytes, List.map_cons, List.sum_cons, List.length_cons]
    omega
  | cons d ds =>
    have : ds.length + 1 = bs.length - bufsize := by rw [← hdl, hD]; simp
    simp only [pushback, hD, schedBytes, List.map_cons, List.sum_cons, List.length_cons]
    omega

/-- `TCPConnector.receive_until(delimiter)`: accumulate one byte at a time
(`recv(1)`) into `data` until the delimiter occurs in `data` or a
zero-length read signals close; an uncaught `socket.timeout` raises. -/
def receiveUntil (delimiter : Bytes) (data : Bytes) (s : Sched) : Except TcpErr Bytes :=
  if containsSub data delimiter then .ok data
  else
    match s with
    | [] => .ok data
    | .tmout :: _ => .error .timeout
    | .chunk [] :: _ => .ok data
    | .chunk (b :: bstl) :: rest =>
        receiveUntil delimiter (data ++ [b]) (pushback bstl rest)
termination_by schedBytes s + s.length
decreasing_by
  cases hD : bstl with
  | nil =>
    simp only [pushback, hD, schedBytes, List.map_cons, List.sum_cons, List.length_cons]
    omega
  | cons d ds =>
    simp only [pushback, hD, schedBytes, List.map_cons, List.sum_cons, List.length_cons]
    omega

/-- `TCPConnector.receive(size)`: a single `recv(size)` when `size` is
truthy, the until-close gathering loop otherwise (`None` and `0` are
both falsy in the Python guard `if size:`). -/
def TCPConnector.receive (buffer_size : Nat) (size : Option Nat) (s : Sched) :
    Except TcpErr Bytes :=
  if truthyNat size then (recvOne (size.getD 0) s).map (fun p => p.1)
  else .ok (recvUntilClose buffer_size s)

/-- Connector state: configured timeout, buffer size and whether a socket
object is currently held (`_socket is not None`). -/
structure TCPConnState where
  host : String
  port : Nat
  timeout : Nat := 30
  buffer_size : Nat := 4096
  sock : Bool := false
deriving DecidableEq

/-- `TCPConnector.receive_data(send_data, timeout, expect_size)`:
optionally override the timeout, connect, send when `send_data` is
truthy, receive, and in a `finally` block always disconnect and restore
the original timeout.  `connectOk`/`sendOk` are the outcomes of the
external `connect` and `sendall` calls; `sendall` of a `str` payload
raises `TypeError` deterministically (the connector never encodes). -/
def TCPConnector.receive_data (st : TCPConnState) (send_data : Option SendData)
    (timeout : Option Nat) (expect_size : Option Nat)
    (connectOk sendOk : Bool) (s : Sched) : Except TcpErr Bytes × TCPConnState :=
  let original_timeout := st.timeout
  let st1 := if truthyNat timeout then { st with timeout := timeout.getD 0 } else st
  -- connect() stores the socket object before the connect call, so the
  -- finally-block disconnect closes it on every exit path below.
  let final := { st1 with sock := false, timeout := original_timeout }
  if !connectOk then
    (.error .connFailed, final)
  else if truthySend send_data then
    match send_data with
    | some (.pyStr _) => (.error .typeError, final)
    | some (.pyBytes _) =>
      if !sendOk then (.error .sendFailed, final)
      else (TCPConnector.receive st1.buffer_size expect_size s, final)
    | none => (TCPConnector.receive st1.buffer_size expect_size s, final)
  else
    (TCPConnector.receive st1.buffer_size expect_size s, final)

/-! ## Transform handler (`transform_handler.py`) -/

/-- Name of the raw-upload S3 bucket (`RAW_BUCKET` environment value). -/
def RAW_BUCKET : String := "RAW_BUCKET"

/-- Name of the data-lake S3 bucket (`PARQUET_BUCKET` environment value). -/
def PARQUET_BUCKET : String := "PARQUET_BUCKET"

/-- `detect_file_format`: look the lowercased last dot-component of the
filename up in the fixed format map, defaulting to `"binary"`. -/
def detect_file_format (filename : String) : String :=
  let ext := lastSplitPart '.' (pyLower filename)
  if ext = "csv" then "csv"
  else if ext = "json" then "json"
  else if ext = "xls" then "excel"
  else if ext = "xlsx" then "excel"
  else if ext = "parquet" then "parquet"
  else if ext = "txt" then "csv"
  else "binary"

/-- The event payload a transform invocation receives. -/
structure TransformEvent where
  job_id : Option String := none
  created_at : Option String := none
  s3_key : Option String := none
  table_name : Option String := none
deriving DecidableEq

/-- Outcomes of the external calls the transform handler makes: the S3
`get_object`, the pandas load (row and column counts on success), the
pyarrow conversion, the S3 `put_object` of the parquet bytes, and the
final `update_item` writing the output columns.  An `error`/`some`
value is the message of the exception that call raises. -/
structure TransformOracle where
  blob : Except String Bytes
  parse : Except String (Nat × Nat)
  parquetBytes : Bytes := []
  convErr : Option String := none
  putErr : Option String := none
  outErr : Option String := none

/-- Return value of the transform handler. -/
inductive TResp
  | missingFields
  | unsupported
  | completed (job_id output_key : String) (row_count column_count : Nat)
  | failed (error : String)
deriving DecidableEq

/-- HTTP-ish status code of a transform handler return value. -/
def TResp.statusCode : TResp → Nat
  | .missingFields => 400
  | .unsupported => 400
  | .completed _ _ _ _ => 200
  | .failed _ => 500

/-- `transform_handler.handler`: transition to `TRANSFORMING`, fetch the
raw bytes, detect the format, parse, convert to parquet, upload, and
finish `COMPLETED`; any exception in the `try` block appends a `FAILED`
update with progress 0.  `now` is `datetime.utcnow().isoformat()` and
`processing_date` its `YYYY-MM-DD` rendering. -/
def transform_handler (ev : TransformEvent) (o : TransformOracle)
    (now processing_date : String) : TResp × List Effect :=
  let job_id := ev.job_id.getD ""
  let created_at := ev.created_at.getD ""
  let s3_key := ev.s3_key.getD ""
  let table_name := ev.table_name.getD "default"
  if !(truthyStr ev.job_id && truthyStr ev.created_at && truthyStr ev.s3_key) then
    (.missingFields, [])
  else
    let fail := fun (pre : List Effect) (e : String) =>
      ((.failed ("Transformation failed: " ++ e) : TResp),
       pre ++ [Effect.updateJob job_id created_at .FAILED 0 ("Transformation failed: " ++ e) now])
    let u1 := Effect.updateJob job_id created_at .TRANSFORMING 55
      "Starting data transformation..." now
    let u2 := Effect.updateJob job_id created_at .TRANSFORMING 60
      "Downloading raw file from S3..." now
    match o.blob with
    | .error e => fail [u1, u2] e
    | .ok _file_content =>
      let filename := lastSplitPart '/' s3_key
      let file_format := detect_file_format filename
      let u3 := Effect.updateJob job_id created_at .TRANSFORMING 65
        ("Detected format: " ++ file_format) now
      if file_format = "binary" then
        (.unsupported,
         [u1, u2, u3, Effect.updateJob job_id created_at .FAILED 0
            ("Unsupported file format for: " ++ filename) now])
      else
        let u4 := Effect.updateJob job_id created_at .TRANSFORMING 70
          "Loading data into DataFrame..." now
        match o.parse with
        | .error e => fail [u1, u2, u3, u4] e
        | .ok (row_count, col_count) =>
          let u5 := Effect.updateJob job_id created_at .TRANSFORMING 80
            ("Loaded " ++ toString row_count ++ " rows, " ++ toString col_count ++
             " columns. Converting to Parquet...") now
          match o.convErr with
          | some e => fail [u1, u2, u3, u4, u5] e
          | none =>
            let base_filename := pySplitextRoot filename
            let parquet_key := table_name ++ "/" ++ processing_date ++ "/" ++
              base_filename ++ "_" ++ job_id ++ ".parquet"
            let u6 := Effect.updateJob job_id created_at .TRANSFORMING 90
              "Uploading Parquet file to data lake..." now
            match o.putErr with
            | some e => fail [u1, u2, u3, u4, u5, u6] e
            | none =>
              let pput := Effect.putParquet parquet_key o.parquetBytes job_id filename
                row_count col_count processing_date
              let u7 := Effect.updateJob job_id created_at .COMPLETED 100
                ("Successfully converted to Parquet. Output: s3://" ++ PARQUET_BUCKET ++
                 "/" ++ parquet_key) now
              match o.outErr with
              | some e => fail [u1, u2, u3, u4, u5, u6, pput, u7] e
              | none =>
                (.completed job_id parquet_key row_count col_count,
                 [u1, u2, u3, u4, u5, u6, pput, u7,
                  Effect.updateOutput job_id created_at parquet_key row_count col_count])

/-! ## Ingestion handler (`ingestion_handler.py`) -/

/-- Outcomes of the external calls an ingest step makes: the connector
fetch (downloaded bytes, or the raised exception's message) and the S3
`put_object` into the raw bucket. -/
structure IngestOracle where
  fetch : Except String Bytes
  s3PutErr : Option String := none

/-- Return value of the ingestion handler. -/
inductive IResp
  | badJson
  | missingSourceType
  | invalidSourceType (st : String)
  | configError (msg : String)
  | accepted (job_id source_type table_name : String)
  | internalError (msg : String)
deriving DecidableEq

/-- HTTP status code of an ingestion handler return value; the `202`
accepted body also reports `status = "PROCESSING"`. -/
def IResp.statusCode : IResp → Nat
  | .badJson => 400
  | .missingSourceType => 400
  | .invalidSourceType _ => 400
  | .configError _ => 400
  | .accepted _ _ _ => 202
  | .internalError _ => 500

/-- `ingest_from_ftp`: progress updates at 10 and 30, connector download,
raw-bucket put, update at 50; any exception writes `FAILED` with
progress 0 and re-raises. -/
def ingest_from_ftp (job_id created_at : String) (config : SourceConfig)
    (now : String) (o : IngestOracle) : Except String (String × String) × List Effect :=
  let u1 := Effect.updateJob job_id created_at .PROCESSING 10 "Connecting to FTP server..." now
  let u2 := Effect.updateJob job_id created_at .PROCESSING 30 "Downloading file from FTP..." now
  let failU := fun (e : String) =>
    Effect.updateJob job_id created_at .FAILED 0 ("FTP ingestion failed: " ++ e) now
  match o.fetch with
  | .error e => (.error e, [u1, u2, failU e])
  | .ok file_content =>
    let filename := pyBasename (config.file_path.getD "")
    let s3_key := "raw/" ++ job_id ++ "/" ++ filename
    match o.s3PutErr with
    | some e => (.error e, [u1, u2, failU e])
    | none =>
      (.ok (s3_key, filename),
       [u1, u2, Effect.putRaw s3_key file_content,
        Effect.updateJob job_id created_at .PROCESSING 50
          "File uploaded to S3, triggering transformation..." now])

/-- `ingest_from_http` (also serving `source_type = "api"`). -/
def ingest_from_http (job_id created_at : String) (config : SourceConfig)
    (now : String) (o : IngestOracle) : Except String (String × String) × List Effect :=
  let u1 := Effect.updateJob job_id created_at .PROCESSING 10
    "Fetching data from HTTP endpoint..." now
  let u2 := Effect.updateJob job_id created_at .PROCESSING 30 "Downloading data..." now
  let failU := fun (e : String) =>
    Effect.updateJob job_id created_at .FAILED 0 ("HTTP ingestion failed: " ++ e) now
  match o.fetch with
  | .error e => (.error e, [u1, u2, failU e])
  | .ok data =>
    let filename := config.filename.getD ("http_data_" ++ job_id ++ ".json")
    let s3_key := "raw/" ++ job_id ++ "/" ++ filename
    match o.s3PutErr with
    | some e => (.error e, [u1, u2, failU e])
    | none =>
      (.ok (s3_key, filename),
       [u1, u2, Effect.putRaw s3_key data,
        Effect.updateJob job_id created_at .PROCESSING 50
          "Data uploaded to S3, triggering transformation..." now])

/-- `ingest_from_tcp`. -/
def ingest_from_tcp (job_id created_at : String) (config : SourceConfig)
    (now : String) (o : IngestOracle) : Except String (String × String) × List Effect :=
  let u1 := Effect.updateJob job_id created_at .PROCESSING 10
    "Connecting to TCP endpoint..." now
  let u2 := Effect.updateJob job_id created_at .PROCESSING 30 "Receiving data..." now
  let failU := fun (e : String) =>
    Effect.updateJob job_id created_at .FAILED 0 ("TCP ingestion failed: " ++ e) now
  match o.fetch with
  | .error e => (.error e, [u1, u2, failU e])
  | .ok data =>
    let filename := config.filename.getD ("tcp_data_" ++ job_id ++ ".bin")
    let s3_key := "raw/" ++ job_id ++ "/" ++ filename
    match o.s3PutErr with
    | some e => (.error e, [u1, u2, failU e])
    | none =>
      (.ok (s3_key, filename),
       [u1, u2, Effect.putRaw s3_key data,
        Effect.updateJob job_id created_at .PROCESSING 50
          "Data uploaded to S3, triggering transformation..." now])

/-- Parsed request body of an ingestion submit (`json.loads` failure is
the `badJson` event). -/
structure IngestRequest where
  source_type : Option String := none
  table_name : Option String := none
  config : Option SourceConfig := none
deriving DecidableEq

/-- An ingestion invocation: either an unparsable body or a parsed one. -/
inductive IngestEvent
  | badJson
  | parsed (body : IngestRequest)
deriving DecidableEq

/-- `ingestion_handler.handler`: validate `source_type`, create the job
record, validate the per-type required config fields, run the matching
ingest step, then dispatch the transform task.  `job_id` is the
generated uuid, `now` the creation timestamp and `ttl` the expiry
marker.  A connector or S3 exception re-raised by the ingest step is
caught by the outer `except` and returned as a 500. -/
def ingestion_handler (ev : IngestEvent) (job_id now : String) (ttl : Nat)
    (o : IngestOracle) : IResp × List Effect :=
  match ev with
  | .badJson => (.badJson, [])
  | .parsed body =>
    let table_name := body.table_name.getD "default"
    let config := body.config.getD {}
    if !truthyStr body.source_type then (.missingSourceType, [])
    else
      let st := body.source_type.getD ""
      if !(st == "ftp" || st == "http" || st == "tcp" || st == "api") then
        (.invalidSourceType st, [])
      else
        let created_at := now
        let job_record : JobRecord :=
          { job_id := job_id, created_at := now, updated_at := now, status := .PENDING,
            source_type := st, source_config := some config, progress := 0,
            message := "Job created, waiting for processing", ttl := ttl }
        let pj := Effect.putJob job_record
        let finish := fun (r : Except String (String × String) × List Effect) =>
          match r.1 with
          | .ok (s3_key, _filename) =>
            ((.accepted job_id st table_name : IResp),
             pj :: r.2 ++ [Effect.invokeTransform job_id created_at s3_key table_name])
          | .error e => ((.internalError ("Internal server error: " ++ e) : IResp), pj :: r.2)
        if st = "ftp" then
          if !truthyStr config.host || !truthyStr config.file_path then
            (.configError "FTP config requires: host, file_path", [pj])
          else finish (ingest_from_ftp job_id created_at config now o)
        else if st = "http" then
          if !truthyStr config.url then (.configError "HTTP config requires: url", [pj])
          else finish (ingest_from_http job_id created_at config now o)
        else if st = "tcp" then
          if !truthyStr config.host || !truthyNat config.port then
            (.configError "TCP config requires: host, port", [pj])
          else finish (ingest_from_tcp job_id created_at config now o)
        else
          if !truthyStr config.url then (.configError "API config requires: url", [pj])
          else finish (ingest_from_http job_id created_at config now o)

/-! ## Upload handler (`upload_handler.py`) -/

/-- `validate_file_format`: require an extension and that the lowercased
last dot-component is one of the supported extensions. -/
def validate_file_format (filename : String) : Bool × String :=
  let supported_extensions := ["csv", "json", "xls", "xlsx", "txt"]
  if !(filename.data.contains '.') then (false, "File must have an extension")
  else
    let ext := lastSplitPart '.' (pyLower filename)
    if !(supported_extensions.contains ext) then
      (false, "Unsupported file format: ." ++ ext ++ ". Supported: csv, json, xls, xlsx, txt")
    else (true, "OK")

/-- Maximum accepted decoded upload size in bytes (10 MiB). -/
def max_size : Nat := 10 * 1024 * 1024

/-- An upload request: either the API-Gateway binary branch
(`isBase64Encoded`, gateway-decoded `body_raw`, filename from headers or
query parameters) or the JSON branch (`filename`, `table_name`, base64
`content`). -/
structure UploadRequest where
  isBase64Encoded : Bool := false
  body_raw : Bytes := []
  header_x_filename : Option String := none
  header_X_Filename : Option String := none
  qp_filename : Option String := none
  qp_table_name : Option String := none
  filename : Option String := none
  table_name : Option String := none
  content : Option String := none

/-- An upload invocation: an unparsable JSON body or a parsed request. -/
inductive UploadEvent
  | badJson
  | parsed (r : UploadRequest)

/-- Outcomes of the upload handler's external calls: `base64.b64decode`,
the raw-bucket `put_object`, the DynamoDB `put_item` and the dispatch
`invoke`. -/
structure UploadOracle where
  b64 : String → Except Unit Bytes
  s3PutErr : Option String := none
  ddbPutErr : Option String := none
  invokeErr : Option String := none

/-- Return value of the upload handler. -/
inductive UResp
  | errorMsg (msg : String)
  | accepted (job_id filename table_name s3_key : String)
  | internalError (msg : String)
deriving DecidableEq

/-- HTTP status code of an upload handler return value. -/
def UResp.statusCode : UResp → Nat
  | .errorMsg _ => 400
  | .accepted _ _ _ _ => 202
  | .internalError _ => 500

/-- The `status` field of the response body (the 202 body hard-codes
`"PROCESSING"`). -/
def UResp.bodyStatus : UResp → Option String
  | .accepted _ _ _ _ => some "PROCESSING"
  | _ => none

/-- First truthy option, else the default (the Python `or` chain used for
the binary-branch filename). -/
def firstTruthy (opts : List (Option String)) (dflt : String) : String :=
  match opts with
  | [] => dflt
  | o :: rest => if truthyStr o then o.getD "" else firstTruthy rest dflt

/-- Shared tail of `upload_handler.handler` once filename, table name and
decoded content are resolved: validate format, validate size, put the
blob, create the `PENDING` job record, dispatch the transform task. -/
def upload_tail (job_id now : String) (ttl : Nat) (o : UploadOracle)
    (filename table_name : String) (file_content : Bytes) : UResp × List Effect :=
  let v := validate_file_format filename
  if !v.1 then (.errorMsg v.2, [])
  else if file_content.length > max_size then
    (.errorMsg ("File too large. Maximum size: " ++ toString (max_size / (1024 * 1024)) ++ "MB"), [])
  else
    let s3_key := "raw/" ++ job_id ++ "/" ++ filename
    match o.s3PutErr with
    | some e => (.internalError ("Internal server error: " ++ e), [])
    | none =>
      let pr := Effect.putRaw s3_key file_content
      let job_record : JobRecord :=
        { job_id := job_id, created_at := now, updated_at := now, status := .PENDING,
          source_type := "upload", filename := some filename,
          table_name := some table_name, progress := 0,
          message := "File uploaded, waiting for processing", ttl := ttl }
      match o.ddbPutErr with
      | some e => (.internalError ("Internal server error: " ++ e), [pr])
      | none =>
        match o.invokeErr with
        | some e => (.internalError ("Internal server error: " ++ e), [pr, Effect.putJob job_record])
        | none =>
          (.accepted job_id filename table_name s3_key,
           [pr, Effect.putJob job_record,
            Effect.invokeTransform job_id now s3_key table_name])

/-- `upload_handler.handler`: resolve filename/table/content from the
binary or JSON branch, then run the shared tail.  `ts` is the
`datetime.utcnow().strftime(...)` stamp of the binary branch's default
filename. -/
def upload_handler (ev : UploadEvent) (job_id now ts : String) (ttl : Nat)
    (o : UploadOracle) : UResp × List Effect :=
  match ev with
  | .badJson => (.errorMsg "Invalid JSON in request body", [])
  | .parsed r =>
    if r.isBase64Encoded then
      let filename := firstTruthy [r.header_x_filename, r.header_X_Filename, r.qp_filename]
        ("upload_" ++ ts ++ ".bin")
      let table_name := r.qp_table_name.getD "default"
      upload_tail job_id now ttl o filename table_name r.body_raw
    else
      if !truthyStr r.filename then (.errorMsg "Missing required field: filename", [])
      else if !truthyStr r.content then (.errorMsg "Missing required field: content", [])
      else
        match o.b64 (r.content.getD "") with
        | .error _ => (.errorMsg "Invalid base64 content", [])
        | .ok file_content =>
          upload_tail job_id now ttl o (r.filename.getD "") (r.table_name.getD "default")
            file_content

/-! ## Status handler (`status_handler.py`) -/

/-- Descending `created_at` order (most recent first). -/
def byCreatedDesc : JobRecord → JobRecord → Prop :=
  fun a b => b.created_at ≤ a.created_at

instance : DecidableRel byCreatedDesc :=
  fun a b => inferInstanceAs (Decidable (b.created_at ≤ a.created_at))

/-- `get_job_by_id`: DynamoDB query by partition key with
`ScanIndexForward=False, Limit=1` — the record with the greatest
`created_at` among those with this `job_id`. -/
def get_job_by_id (store : List JobRecord) (job_id : String) : Option JobRecord :=
  (((store.filter (fun r => r.job_id == job_id)).insertionSort byCreatedDesc).take 1).head?

/-- `list_jobs`: when a truthy status is given, query the `status-index`
GSI (matching records in descending `created_at` order, `Limit=limit`);
otherwise scan up to `limit` records.  Then sort by `created_at`
descending and truncate to `limit`. -/
def list_jobs (store : List JobRecord) (status : Option String) (limit : Nat) :
    List JobRecord :=
  let response :=
    if truthyStr status then
      ((store.filter (fun r => r.status.str == status.getD "")).insertionSort
        byCreatedDesc).take limit
    else
      store.take limit
  let items := response
  (items.insertionSort byCreatedDesc).take limit

/-- The list branch of `status_handler.handler`: parse the `limit` query
parameter (default 20), clamp it to at most 100, and list jobs with the
optional status filter.  Returns the jobs plus the echoed filter. -/
def status_list_handler (store : List JobRecord) (qp_status : Option String)
    (qp_limit : Option Nat) : List JobRecord × Nat × Option String × Nat :=
  let limit0 := qp_limit.getD 20
  let limit := min limit0 100
  let jobs := list_jobs store qp_status limit
  (jobs, jobs.length, qp_status, limit)

/-! ## Job-status update traces

`updatesOf` projects the `(status, progress)` pairs of the DynamoDB
status updates out of an effect list, in program order; `jobHistory`
is the sequence of status updates a job undergoes across one ingestion
invocation followed by any number of (at-least-once delivered)
transform invocations. -/

/-- The `(status, progress)` pairs of the status updates in an effect
list, in program order. -/
def updatesOf (effs : List Effect) : List (JobStatus × Nat) :=
  effs.filterMap (fun e =>
    match e with
    | .updateJob _ _ st p _ _ => some (st, p)
    | _ => none)

/-- Between two successive updates, progress may not decrease unless one
of the two writes a terminal status. -/
def stepOk (u v : JobStatus × Nat) : Prop :=
  u.1.isTerminal = false → v.1.isTerminal = false → u.2 ≤ v.2

instance : ∀ u v, Decidable (stepOk u v) := fun u v =>
  inferInstanceAs (Decidable (u.1.isTerminal = false → v.1.isTerminal = false → u.2 ≤ v.2))

/-- The progress invariant over an update trace: consecutive non-terminal
updates are non-decreasing, and every `FAILED` update has progress 0. -/
def progressOk (l : List (JobStatus × Nat)) : Prop :=
  l.Chain' stepOk ∧ ∀ u ∈ l, u.1 = JobStatus.FAILED → u.2 = 0

/-- Arguments of one transform invocation: event, oracle, `now`
timestamp and processing date. -/
structure TransformCall where
  ev : TransformEvent
  o : TransformOracle
  now : String
  date : String

/-- Update trace of one transform invocation. -/
def transformTrace (c : TransformCall) : List (JobStatus × Nat) :=
  updatesOf (transform_handler c.ev c.o c.now c.date).2

/-- The whole update history of a job: the ingestion invocation's updates
followed by those of any number of redelivered transform invocations. -/
def jobHistory (iev : IngestEvent) (job_id now : String) (ttl : Nat)
    (io : IngestOracle) (ts : List TransformCall) : List (JobStatus × Nat) :=
  updatesOf (ingestion_handler iev job_id now ttl io).2 ++ (ts.map transformTrace).join

/-- The `(status, progress)` traces a transform invocation can emit: one
per exit path of the handler. -/
def transformShapes : List (List (JobStatus × Nat)) :=
  [[],
   [(.TRANSFORMING, 55), (.TRANSFORMING, 60), (.FAILED, 0)],
   [(.TRANSFORMING, 55), (.TRANSFORMING, 60), (.TRANSFORMING, 65), (.FAILED, 0)],
   [(.TRANSFORMING, 55), (.TRANSFORMING, 60), (.TRANSFORMING, 65), (.TRANSFORMING, 70),
    (.FAILED, 0)],
   [(.TRANSFORMING, 55), (.TRANSFORMING, 60), (.TRANSFORMING, 65), (.TRANSFORMING, 70),
    (.TRANSFORMING, 80), (.FAILED, 0)],
   [(.TRANSFORMING, 55), (.TRANSFORMING, 60), (.TRANSFORMING, 65), (.TRANSFORMING, 70),
    (.TRANSFORMING, 80), (.TRANSFORMING, 90), (.FAILED, 0)],
   [(.TRANSFORMING, 55), (.TRANSFORMING, 60), (.TRANSFORMING, 65), (.TRANSFORMING, 70),
    (.TRANSFORMING, 80), (.TRANSFORMING, 90), (.COMPLETED, 100)],
   [(.TRANSFORMING, 55), (.TRANSFORMING, 60), (.TRANSFORMING, 65), (.TRANSFORMING, 70),
    (.TRANSFORMING, 80), (.TRANSFORMING, 90), (.COMPLETED, 100), (.FAILED, 0)]]

/-- The `(status, progress)` traces an ingestion invocation can emit. -/
def ingestShapes : List (List (JobStatus × Nat)) :=
  [[],
   [(.PROCESSING, 10), (.PROCESSING, 30), (.FAILED, 0)],
   [(.PROCESSING, 10), (.PROCESSING, 30), (.PROCESSING, 50)]]

/-! ## Concrete fixtures used by witnesses and counterexamples -/

/-- A job record as it stands after a first successful transform:
`COMPLETED`, progress 100, output columns recorded, last touched at
`"2026-01-01T00:00:10"`. -/
def completedRecord : JobRecord :=
  { job_id := "j1", created_at := "2026-01-01T00:00:00",
    updated_at := "2026-01-01T00:00:10", status := .COMPLETED,
    source_type := "upload", progress := 100,
    message := "Successfully converted to Parquet. Output: s3://PARQUET_BUCKET/default/2026-01-01/data_j1.parquet",
    output_key := some "default/2026-01-01/data_j1.parquet",
    row_count := some 5, column_count := some 3 }

/-- The transform event whose first delivery produced `completedRecord`. -/
def redeliveredEvent : TransformEvent :=
  { job_id := some "j1", created_at := some "2026-01-01T00:00:00",
    s3_key := some "raw/j1/data.csv", table_name := some "default" }

/-- Oracle for the redelivered transform: the raw blob is still there and
parses to the same 5 rows and 3 columns. -/
def redeliveredOracle : TransformOracle :=
  { blob := .ok [79, 75], parse := .ok (5, 3) }

/-- The TCP submit request of the spec's scenario:
`{source_type: "tcp", config: {host: "h", port: 9000, send_data: "Q"}}`. -/
def tcpScenarioRequest : IngestRequest :=
  { source_type := some "tcp",
    config := some { host := some "h", port := some 9000, send_data := some "Q" } }

/-- The peer of the spec's TCP scenario: replies `"OK"` (bytes 79, 75)
and then closes the connection. -/
def okThenCloseSched : Sched := [NetEv.chunk [79, 75]]

/-- What the TCP connector returns for that request: `receive_data` with
the JSON-decoded `str` payload `"Q"`, the configured 30-second timeout
and no `expect_size`.  The `str` reaches `socket.sendall` unencoded and
raises `TypeError` (its Python message below), which the ingest step
observes as the connector outcome. -/
def tcpScenarioFetch : Except String Bytes :=
  match (TCPConnector.receive_data { host := "h", port := 9000 }
      (some (.pyStr "Q")) (some 30) none true true okThenCloseSched).1 with
  | .ok bs => .ok bs
  | .error .typeError => .error "a bytes-like object is required, not 'str'"
  | .error _ => .error "tcp error"

/-- Effects of the scenario's ingestion invocation. -/
def tcpScenarioIngestion : IResp × List Effect :=
  ingestion_handler (.parsed tcpScenarioRequest) "j1" "2026-01-01T00:00:00" 7
    { fetch := tcpScenarioFetch }

/-- The job record of the scenario after the ingestion invocation's
effects (no transform is ever dispatched: ingestion raises). -/
def tcpScenarioFinal : Option JobRecord :=
  applyEffects "j1" "2026-01-01T00:00:00" none tcpScenarioIngestion.2

/-- A tcp submit whose config carries host `"h"` but the falsy port 0. -/
def tcpNoPortRequest : IngestRequest :=
  { source_type := some "tcp", config := some { host := some "h", port := some 0 } }

/-- A transform event whose blob key carries an unsupported `.bin`
extension. -/
def binEvent : TransformEvent :=
  { job_id := some "j1", created_at := some "T1", s3_key := some "raw/j1/archive.bin" }

instance : IsTotal JobRecord byCreatedDesc :=
  ⟨fun a b => le_total b.created_at a.created_at⟩

instance : IsTrans JobRecord byCreatedDesc :=
  ⟨fun _ _ _ hab hbc => le_trans hbc hab⟩

/-! # Theorems -/

/-- C10: On every exit path of `TCPConnector.receive_data` — success,
connect failure, send failure, receive failure or timeout — the socket
is released (`_socket = None`) and the connector's configured timeout is
restored to its value before the call, so a per-call timeout override
never persists into later calls. -/
theorem receive_data_releases_socket_and_restores_timeout
    (st : TCPConnState) (send_data : Option SendData) (tmo exp : Option Nat)
    (connectOk sendOk : Bool) (s : Sched) :
    ((TCPConnector.receive_data st send_data tmo exp connectOk sendOk s).2).sock = false ∧
    ((TCPConnector.receive_data st send_data tmo exp connectOk sendOk s).2).timeout = st.timeout := by
  unfold TCPConnector.receive_data
  rcases send_data with _ | sd
  · by_cases hc : connectOk <;> by_cases ht : truthyNat tmo <;>
      by_cases hs : truthySend none <;> simp [hc, ht, hs]
  · cases sd with
    | pyStr ss =>
      by_cases hc : connectOk <;> by_cases ht : truthyNat tmo <;>
        by_cases hs : truthySend (some (SendData.pyStr ss)) <;>
        simp [hc, ht, hs]
    | pyBytes bb =>
      by_cases hc : connectOk <;> by_cases ht : truthyNat tmo <;>
        by_cases hs : truthySend (some (SendData.pyBytes bb)) <;>
        by_cases hso : sendOk <;>
        simp [hc, ht, hs, hso]

/-- C4: Format detection maps the lowercased extension as
csv→csv, txt→csv, json→json, xls/xlsx→excel, parquet→parquet
(columnar passthrough); case-insensitivity on the spec's examples; and
every other extension is classified `binary` and makes the transform
handler mark the job `FAILED` as unsupported. -/
theorem detect_format_mapping :
    (∀ fn : String,
      ((lastSplitPart '.' (pyLower fn) = "csv" ∨ lastSplitPart '.' (pyLower fn) = "txt") →
        detect_file_format fn = "csv") ∧
      (lastSplitPart '.' (pyLower fn) = "json" → detect_file_format fn = "json") ∧
      ((lastSplitPart '.' (pyLower fn) = "xls" ∨ lastSplitPart '.' (pyLower fn) = "xlsx") →
        detect_file_format fn = "excel") ∧
      (lastSplitPart '.' (pyLower fn) = "parquet" → detect_file_format fn = "parquet") ∧
      (lastSplitPart '.' (pyLower fn) ∉ ["csv", "txt", "json", "xls", "xlsx", "parquet"] →
        detect_file_format fn = "binary")) ∧
    detect_file_format "data.CSV" = "csv" ∧
    detect_file_format "report.JSON" = "json" ∧
    detect_file_format "book.xlsx" = "excel" ∧
    detect_file_format "archive.bin" = "binary" ∧
    (∀ (ev : TransformEvent) (o : TransformOracle) (now date : String) (content : Bytes),
      truthyStr ev.job_id = true → truthyStr ev.created_at = true →
      truthyStr ev.s3_key = true → o.blob = .ok content →
      detect_file_format (lastSplitPart '/' (ev.s3_key.getD "")) = "binary" →
      (transform_handler ev o now date).1 = .unsupported ∧
      (transform_handler ev o now date).2.getLast? =
        some (Effect.updateJob (ev.job_id.getD "") (ev.created_at.getD "") .FAILED 0
          ("Unsupported file format for: " ++ lastSplitPart '/' (ev.s3_key.getD "")) now)) := by
  refine ⟨fun fn => ?_, by decide, by decide, by decide, by decide, ?_⟩
  · refine ⟨fun h => ?_, fun h => ?_, fun h => ?_, fun h => ?_, fun h => ?_⟩
    · rcases h with h | h <;> simp [detect_file_format, h]
    · simp [detect_file_format, h]
    · rcases h with h | h <;> simp [detect_file_format, h]
    · simp [detect_file_format, h]
    · simp only [List.mem_cons, List.not_mem_nil, or_false, not_or] at h
      obtain ⟨h1, h2, h3, h4, h5, h6⟩ := h
      simp [detect_file_format, h1, h2, h3, h4, h5, h6]
  · intro ev o now date content hj hc hk hb hd
    unfold transform_handler
    simp [hj, hc, hk, hb, hd]

/-- C4 witness: the transform-handler conjunct applied at the concrete
event `raw/j1/archive.bin`. -/
theorem detect_format_mapping_witness :
    (truthyStr (TransformEvent.job_id binEvent) = true ∧
     detect_file_format "archive.bin" = "binary") ∧
    (transform_handler binEvent { blob := .ok [1], parse := .ok (0, 0) }
      "T2" "2026-01-02").1 = .unsupported :=
  ⟨by decide,
   (detect_format_mapping.2.2.2.2.2 binEvent
      { blob := .ok [1], parse := .ok (0, 0) } "T2" "2026-01-02" [1]
      (by decide) (by decide) (by decide) rfl (by decide)).1⟩

/-- C5: Whatever `limit` the caller supplies, the list branch of the
status handler returns at most 100 records, sorted by `created_at`
descending, and every returned record matches the status filter when a
(truthy) one is supplied. -/
theorem list_jobs_clamped_sorted_filtered
    (store : List JobRecord) (qp_status : Option String) (qp_limit : Option Nat) :
    ((status_list_handler store qp_status qp_limit).1).length ≤ 100 ∧
    ((status_list_handler store qp_status qp_limit).1).Sorted byCreatedDesc ∧
    (∀ s, qp_status = some s → s.isEmpty = false →
      ∀ r ∈ (status_list_handler store qp_status qp_limit).1, r.status.str = s) := by
  unfold status_list_handler list_jobs
  refine ⟨?_, ?_, ?_⟩
  · simp only [List.length_take]
    omega
  · exact List.Pairwise.sublist (List.take_sublist _ _)
      (List.sorted_insertionSort byCreatedDesc _)
  · intro s hs he r hr
    have hr1 : r ∈ List.insertionSort byCreatedDesc
        (if truthyStr qp_status then
          ((store.filter (fun x => x.status.str == qp_status.getD "")).insertionSort
            byCreatedDesc).take (min (qp_limit.getD 20) 100)
         else store.take (min (qp_limit.getD 20) 100)) :=
      (List.take_sublist _ _).subset hr
    rw [List.mem_insertionSort] at hr1
    have ht : truthyStr qp_status = true := by simp [hs, truthyStr, he]
    rw [if_pos ht] at hr1
    have hr2 := (List.take_sublist _ _).subset hr1
    rw [List.mem_insertionSort, List.mem_filter] at hr2
    have := hr2.2
    rw [hs] at this
    simpa using this

/-- C5 witness: a caller-supplied limit of 200 with a `COMPLETED` filter
on a two-record store. -/
theorem list_jobs_clamped_sorted_filtered_witness :
    ((status_list_handler [completedRecord] (some "COMPLETED") (some 200)).1).length ≤ 100 ∧
    ((status_list_handler [completedRecord] (some "COMPLETED") (some 200)).1).Sorted byCreatedDesc ∧
    (∀ s, (some "COMPLETED" : Option String) = some s → s.isEmpty = false →
      ∀ r ∈ (status_list_handler [completedRecord] (some "COMPLETED") (some 200)).1,
        r.status.str = s) :=
  list_jobs_clamped_sorted_filtered [completedRecord] (some "COMPLETED") (some 200)

/-- C6: An upload whose decoded content exceeds 10 MiB is answered 400
with the size-limit error and performs no external write at all (no blob
put, no job record, no dispatch), in both the JSON and the binary
branch; likewise a filename that fails extension validation is rejected
with 400 before any write. -/
theorem upload_rejects_oversize_and_bad_extension
    (r : UploadRequest) (job_id now ts : String) (ttl : Nat) (o : UploadOracle) :
    (r.isBase64Encoded = false → truthyStr r.filename = true → truthyStr r.content = true →
      ∀ content, o.b64 (r.content.getD "") = .ok content →
      ((validate_file_format (r.filename.getD "")).1 = true → content.length > max_size →
        upload_handler (.parsed r) job_id now ts ttl o =
          (.errorMsg ("File too large. Maximum size: 10MB"), [])) ∧
      ((validate_file_format (r.filename.getD "")).1 = false →
        upload_handler (.parsed r) job_id now ts ttl o =
          (.errorMsg (validate_file_format (r.filename.getD "")).2, []))) ∧
    (r.isBase64Encoded = true →
      ∀ fn, fn = firstTruthy [r.header_x_filename, r.header_X_Filename, r.qp_filename]
          ("upload_" ++ ts ++ ".bin") →
      (((validate_file_format fn).1 = true → r.body_raw.length > max_size →
        upload_handler (.parsed r) job_id now ts ttl o =
          (.errorMsg ("File too large. Maximum size: 10MB"), [])) ∧
      ((validate_file_format fn).1 = false →
        upload_handler (.parsed r) job_id now ts ttl o =
          (.errorMsg (validate_file_format fn).2, [])))) ∧
    UResp.statusCode (.errorMsg ("File too large. Maximum size: 10MB")) = 400 := by
  refine ⟨?_, ?_, rfl⟩
  · intro hb hf hc content hdec
    constructor
    · intro hv hsz
      unfold upload_handler upload_tail
      simp only [hb, Bool.false_eq_true, if_false, hf, hc, Bool.not_true, hdec,
        hv, Bool.false_eq_true, if_false]
      rw [if_pos (by simpa [max_size] using hsz)]
      decide
    · intro hv
      unfold upload_handler upload_tail
      simp only [hb, Bool.false_eq_true, if_false, hf, hc, Bool.not_true, hdec]
      simp [hv]
  · intro hb fn hfn
    constructor
    · intro hv hsz
      unfold upload_handler upload_tail
      simp only [hb, if_true]
      rw [← hfn]
      simp only [hv, Bool.not_true, Bool.false_eq_true, if_false]
      rw [if_pos (by simpa [max_size] using hsz)]
      decide
    · intro hv
      unfold upload_handler upload_tail
      simp only [hb, if_true]
      rw [← hfn]
      simp [hv]

/-- C6 witness: a 15 MiB `big.csv` upload in the JSON branch is rejected
with the size error without any effect. -/
theorem upload_rejects_oversize_witness :
    ((UploadRequest.isBase64Encoded { filename := some "big.csv", content := some "x" } = false ∧
      (validate_file_format "big.csv").1 = true ∧
      (List.replicate (15 * 1024 * 1024) 0).length > max_size) ∧
     upload_handler (.parsed { filename := some "big.csv", content := some "x" })
        "j1" "T1" "TS" 7
        { b64 := fun _ => .ok (List.replicate (15 * 1024 * 1024) 0) } =
      (.errorMsg ("File too large. Maximum size: 10MB"), [])) :=
  ⟨⟨rfl, by decide, by rw [List.length_replicate]; norm_num [max_size]⟩,
   ((upload_rejects_oversize_and_bad_extension
      { filename := some "big.csv", content := some "x" } "j1" "T1" "TS" 7
      { b64 := fun _ => .ok (List.replicate (15 * 1024 * 1024) 0) }).1
      rfl (by decide) (by decide) (List.replicate (15 * 1024 * 1024) 0) rfl).1
      (by decide) (by rw [List.length_replicate]; norm_num [max_size])⟩

/-- C9: Every successful upload (any request reaching the shared tail
with a valid filename, in-limit content and no external failure) is
answered 202 with body status `"PROCESSING"`, while the record persisted
to the job store has status `PENDING` and the upload path issues no
status update at all before dispatching the transform task. -/
theorem upload_persists_pending_but_reports_processing
    (job_id now : String) (ttl : Nat) (o : UploadOracle)
    (filename table_name : String) (content : Bytes) :
    (validate_file_format filename).1 = true →
    content.length ≤ max_size →
    o.s3PutErr = none → o.ddbPutErr = none → o.invokeErr = none →
    (upload_tail job_id now ttl o filename table_name content).1.statusCode = 202 ∧
    (upload_tail job_id now ttl o filename table_name content).1.bodyStatus =
      some "PROCESSING" ∧
    updatesOf (upload_tail job_id now ttl o filename table_name content).2 = [] ∧
    (applyEffects job_id now none
        (upload_tail job_id now ttl o filename table_name content).2).map
      (fun r => r.status) = some JobStatus.PENDING := by
  intro hv hsz hs3 hddb hinv
  unfold upload_tail
  rw [if_neg (by simp [hv]), if_neg (by omega)]
  rw [hs3, hddb, hinv]
  refine ⟨rfl, rfl, rfl, ?_⟩
  simp [applyEffects, applyEffect, updatesOf]

/-- C9 witness: a small `data.csv` upload. -/
theorem upload_persists_pending_witness :
    ((validate_file_format "data.csv").1 = true ∧ ([65] : Bytes).length ≤ max_size) ∧
    (upload_tail "j1" "T1" 7 { b64 := fun _ => .error () } "data.csv" "default" [65]).1.statusCode
        = 202 ∧
    (applyEffects "j1" "T1" none
        (upload_tail "j1" "T1" 7 { b64 := fun _ => .error () } "data.csv" "default" [65]).2).map
      (fun r => r.status) = some JobStatus.PENDING :=
  ⟨⟨by decide, by norm_num [max_size]⟩,
   (upload_persists_pending_but_reports_processing "j1" "T1" 7
      { b64 := fun _ => .error () } "data.csv" "default" [65]
      (by decide) (by norm_num [max_size]) rfl rfl rfl).1,
   (upload_persists_pending_but_reports_processing "j1" "T1" 7
      { b64 := fun _ => .error () } "data.csv" "default" [65]
      (by decide) (by norm_num [max_size]) rfl rfl rfl).2.2.2⟩

/-- C8 counterexample: the peer has 2 bytes buffered (`"OK"`, split over
two kernel deliveries) before closing, yet the fixed-size read of
`expect_size = 2` returns only 1 byte — `TCPConnector.receive` issues a
single `recv`, so it does not gather exactly N bytes. -/
theorem receive_fixed_size_short_read :
    TCPConnector.receive 4096 (some 2) [NetEv.chunk [79], NetEv.chunk [75]] =
      .ok [79] ∧
    schedBytes [NetEv.chunk [79], NetEv.chunk [75]] = 2 ∧
    ([79] : Bytes).length ≠ 2 := by
  decide

/-- C8 amended: the fixed-size receive issues a single `recv`, returning
the first kernel-delivered chunk truncated to N — so exactly N bytes
only when that first chunk holds at least N; and in all three receive
modes a zero-length read (exhausted schedule or empty chunk) is treated
as end-of-stream, returning the bytes gathered so far instead of
raising. -/
theorem receive_modes_spec :
    (∀ (bufsize n : Nat) (bs : Bytes) (rest : Sched), n ≠ 0 →
      TCPConnector.receive bufsize (some n) (NetEv.chunk bs :: rest) = .ok (bs.take n)) ∧
    (∀ (bufsize n : Nat) (bs : Bytes) (rest : Sched), n ≠ 0 → n ≤ bs.length →
      ∃ out, TCPConnector.receive bufsize (some n) (NetEv.chunk bs :: rest) = .ok out ∧
        out.length = n) ∧
    (∀ (bufsize n : Nat), TCPConnector.receive bufsize (some n) [] = .ok []) ∧
    (∀ (bufsize n : Nat) (rest : Sched), n ≠ 0 →
      TCPConnector.receive bufsize (some n) (NetEv.chunk [] :: rest) = .ok []) ∧
    (∀ bufsize : Nat, TCPConnector.receive bufsize none [] = .ok []) ∧
    (∀ (bufsize : Nat) (rest : Sched), recvUntilClose bufsize (NetEv.chunk [] :: rest) = []) ∧
    (∀ delim data : Bytes, receiveUntil delim data [] = .ok data) ∧
    (∀ (delim data : Bytes) (rest : Sched),
      receiveUntil delim data (NetEv.chunk [] :: rest) = .ok data) := by
  refine ⟨?_, ?_, ?_, ?_, ?_, ?_, ?_, ?_⟩
  · intro bufsize n bs rest hn
    simp [TCPConnector.receive, truthyNat, hn, recvOne, Except.map]
  · intro bufsize n bs rest hn hlen
    refine ⟨bs.take n, ?_, ?_⟩
    · simp [TCPConnector.receive, truthyNat, hn, recvOne, Except.map]
    · simp [List.length_take]
      omega
  · intro bufsize n
    by_cases hn : n = 0
    · simp [TCPConnector.receive, truthyNat, hn, recvUntilClose]
    · simp [TCPConnector.receive, truthyNat, hn, recvOne, Except.map]
  · intro bufsize n rest hn
    simp [TCPConnector.receive, truthyNat, hn, recvOne, Except.map]
  · intro bufsize
    simp [TCPConnector.receive, truthyNat, recvUntilClose]
  · intro bufsize rest
    unfold recvUntilClose
    split
    · rfl
    · rename_i h
      simp at h
  · intro delim data
    unfold receiveUntil
    by_cases hc : containsSub data delim <;> simp [hc]
  · intro delim data rest
    unfold receiveUntil
    by_cases hc : containsSub data delim <;> simp [hc]

/-- C8 witness: the exact-N conjunct at a first chunk of 3 bytes read
with `expect_size = 2`, and the end-of-stream conjuncts at a closed
peer. -/
theorem receive_modes_spec_witness :
    ((2 : Nat) ≠ 0 ∧ (2 : Nat) ≤ ([10, 20, 30] : Bytes).length) ∧
    (∃ out, TCPConnector.receive 4096 (some 2) [NetEv.chunk [10, 20, 30]] = .ok out ∧
      out.length = 2) ∧
    receiveUntil [13] [5] [] = .ok [5] :=
  ⟨⟨by decide, by decide⟩,
   receive_modes_spec.2.1 4096 2 [10, 20, 30] [] (by decide) (by decide),
   receive_modes_spec.2.2.2.2.2.2.1 [13] [5]⟩

/-- C1 counterexample: an ftp submit with an empty config is answered
400, yet exactly one job record has already been put into the job store
— the per-type config validation runs only after `create_job_record`. -/
theorem submit_missing_fields_still_creates_job :
    (ingestion_handler (.parsed { source_type := some "ftp" }) "j1" "T1" 7
      { fetch := .error "unused" }).1.statusCode = 400 ∧
    ((ingestion_handler (.parsed { source_type := some "ftp" }) "j1" "T1" 7
      { fetch := .error "unused" }).2.countP Effect.isPutJob) = 1 := by
  decide

/-- C1 amended: for each of the four source types, a submit missing that
type's required config fields is answered 400 with the type's config
error, but a `PENDING` job record has already been created (the only
effect) and is never transitioned. -/
theorem submit_missing_fields_400_after_pending_job
    (body : IngestRequest) (job_id now : String) (ttl : Nat) (o : IngestOracle) (st : String) :
    body.source_type = some st →
    ((st = "ftp" ∧ (truthyStr (body.config.getD {}).host = false ∨
        truthyStr (body.config.getD {}).file_path = false)) ∨
     (st = "http" ∧ truthyStr (body.config.getD {}).url = false) ∨
     (st = "tcp" ∧ (truthyStr (body.config.getD {}).host = false ∨
        truthyNat (body.config.getD {}).port = false)) ∨
     (st = "api" ∧ truthyStr (body.config.getD {}).url = false)) →
    (ingestion_handler (.parsed body) job_id now ttl o).1.statusCode = 400 ∧
    (ingestion_handler (.parsed body) job_id now ttl o).2 =
      [Effect.putJob
        { job_id := job_id, created_at := now, updated_at := now, status := .PENDING,
          source_type := st, source_config := some (body.config.getD {}), progress := 0,
          message := "Job created, waiting for processing", ttl := ttl }] := by
  intro hst hmiss
  unfold ingestion_handler
  rcases hmiss with ⟨he, hm⟩ | ⟨he, hm⟩ | ⟨he, hm⟩ | ⟨he, hm⟩ <;> subst he
  · have e1 : truthyStr (some "ftp") = true := by decide
    rcases hm with hm | hm <;> simp [hst, e1, IResp.statusCode, hm]
  · have e1 : truthyStr (some "http") = true := by decide
    simp [hst, e1, IResp.statusCode, hm]
  · have e1 : truthyStr (some "tcp") = true := by decide
    rcases hm with hm | hm <;> simp [hst, e1, IResp.statusCode, hm]
  · have e1 : truthyStr (some "api") = true := by decide
    simp [hst, e1, IResp.statusCode, hm]

/-- C1 witness: a tcp submit whose port is the falsy 0. -/
theorem submit_missing_fields_400_witness :
    ((IngestRequest.source_type tcpNoPortRequest = some "tcp") ∧
      truthyNat ((tcpNoPortRequest.config.getD {}).port) = false) ∧
    (ingestion_handler (.parsed tcpNoPortRequest) "j1" "T1" 7
        { fetch := .error "unused" }).1.statusCode = 400 ∧
    (ingestion_handler (.parsed tcpNoPortRequest) "j1" "T1" 7
        { fetch := .error "unused" }).2 =
      [Effect.putJob
        { job_id := "j1", created_at := "T1", updated_at := "T1", status := .PENDING,
          source_type := "tcp", source_config := some (tcpNoPortRequest.config.getD {}),
          progress := 0, message := "Job created, waiting for processing", ttl := 7 }] :=
  ⟨⟨rfl, by decide⟩,
   submit_missing_fields_400_after_pending_job tcpNoPortRequest "j1" "T1" 7
     { fetch := .error "unused" } "tcp" rfl
     (Or.inr (Or.inr (Or.inl ⟨rfl, Or.inr (by decide)⟩)))⟩

/-- C2: `update_job_status` carries no terminal-state guard — redelivering
the transform event of a job already `COMPLETED` is not rejected and does
not no-op: the first write regresses the record to `TRANSFORMING` with
progress 55, and after the full second delivery the record's
`updated_at` differs from its value before the redelivery. -/
theorem redelivery_on_completed_not_rejected :
    (transform_handler redeliveredEvent redeliveredOracle
        "2026-01-01T00:05:00" "2026-01-01").2.head? =
      some (Effect.updateJob "j1" "2026-01-01T00:00:00" .TRANSFORMING 55
        "Starting data transformation..." "2026-01-01T00:05:00") ∧
    (applyEffects "j1" "2026-01-01T00:00:00" (some completedRecord)
        ((transform_handler redeliveredEvent redeliveredOracle
          "2026-01-01T00:05:00" "2026-01-01").2.take 1)).map
      (fun r => (r.status, r.progress)) = some (JobStatus.TRANSFORMING, 55) ∧
    (applyEffects "j1" "2026-01-01T00:00:00" (some completedRecord)
        (transform_handler redeliveredEvent redeliveredOracle
          "2026-01-01T00:05:00" "2026-01-01").2).map (fun r => r.updated_at) =
      some "2026-01-01T00:05:00" ∧
    completedRecord.updated_at ≠ "2026-01-01T00:05:00" ∧
    completedRecord.status = JobStatus.COMPLETED := by
  decide

/-- C3: The spec's TCP scenario — submit
`{source_type: "tcp", config: {host: "h", port: 9000, send_data: "Q"}}`
against a peer answering `"OK"` then closing.  The JSON-decoded `str`
payload `"Q"` reaches `socket.sendall` unencoded, which raises
`TypeError`, so ingestion itself fails: no raw blob is written, a
`FAILED` update carrying the TCP-level error is recorded, the submit is
answered 500, and the job ends `FAILED` — never `COMPLETED` with an
`OK` blob as the claim requires. -/
theorem tcp_scenario_fails_with_type_error :
    (TCPConnector.receive_data { host := "h", port := 9000 } (some (.pyStr "Q"))
        (some 30) none true true okThenCloseSched).1 = .error .typeError ∧
    tcpScenarioFetch = .error "a bytes-like object is required, not 'str'" ∧
    tcpScenarioIngestion.1 =
      .internalError "Internal server error: a bytes-like object is required, not 'str'" ∧
    tcpScenarioIngestion.1.statusCode = 500 ∧
    tcpScenarioIngestion.2.countP Effect.isPutRaw = 0 ∧
    Effect.updateJob "j1" "2026-01-01T00:00:00" .FAILED 0
      "TCP ingestion failed: a bytes-like object is required, not 'str'"
      "2026-01-01T00:00:00" ∈ tcpScenarioIngestion.2 ∧
    tcpScenarioFinal.map (fun r => r.status) = some JobStatus.FAILED := by
  decide

/-- Every transform invocation emits one of the eight possible
`(status, progress)` traces. -/
theorem transformTrace_shape (c : TransformCall) : transformTrace c ∈ transformShapes := by
  obtain ⟨ev, o, now, date⟩ := c
  unfold transformTrace transform_handler
  by_cases h1 : (truthyStr ev.job_id && truthyStr ev.created_at && truthyStr ev.s3_key) = true
  case neg =>
    simp [h1, updatesOf, transformShapes]
  case pos =>
    rcases hb : o.blob with e | content
    · simp [h1, hb, updatesOf, transformShapes]
    · by_cases hf : detect_file_format (lastSplitPart '/' (ev.s3_key.getD "")) = "binary"
      · simp [h1, hb, hf, updatesOf, transformShapes]
      · rcases hp : o.parse with e | rc
        · simp [h1, hb, hf, hp, updatesOf, transformShapes]
        · obtain ⟨rows, cols⟩ := rc
          rcases hcv : o.convErr with _ | e
          · rcases hpe : o.putErr with _ | e
            · rcases hoe : o.outErr with _ | e
              · simp [h1, hb, hf, hp, hcv, hpe, hoe, updatesOf, transformShapes]
              · simp [h1, hb, hf, hp, hcv, hpe, hoe, updatesOf, transformShapes]
            · simp [h1, hb, hf, hp, hcv, hpe, updatesOf, transformShapes]
          · simp [h1, hb, hf, hp, hcv, updatesOf, transformShapes]

/-- The ftp ingest step emits one of the failure or success traces. -/
theorem ingest_from_ftp_trace (job_id created_at : String) (cfg : SourceConfig)
    (now : String) (o : IngestOracle) :
    updatesOf (ingest_from_ftp job_id created_at cfg now o).2 ∈ ingestShapes := by
  unfold ingest_from_ftp
  rcases hf : o.fetch with e | bs
  · simp [hf, updatesOf, ingestShapes]
  · rcases hp : o.s3PutErr with _ | e <;> simp [hf, hp, updatesOf, ingestShapes]

/-- The http ingest step emits one of the failure or success traces. -/
theorem ingest_from_http_trace (job_id created_at : String) (cfg : SourceConfig)
    (now : String) (o : IngestOracle) :
    updatesOf (ingest_from_http job_id created_at cfg now o).2 ∈ ingestShapes := by
  unfold ingest_from_http
  rcases hf : o.fetch with e | bs
  · simp [hf, updatesOf, ingestShapes]
  · rcases hp : o.s3PutErr with _ | e <;> simp [hf, hp, updatesOf, ingestShapes]

/-- The tcp ingest step emits one of the failure or success traces. -/
theorem ingest_from_tcp_trace (job_id created_at : String) (cfg : SourceConfig)
    (now : String) (o : IngestOracle) :
    updatesOf (ingest_from_tcp job_id created_at cfg now o).2 ∈ ingestShapes := by
  unfold ingest_from_tcp
  rcases hf : o.fetch with e | bs
  · simp [hf, updatesOf, ingestShapes]
  · rcases hp : o.s3PutErr with _ | e <;> simp [hf, hp, updatesOf, ingestShapes]

/-- Every ingestion invocation emits one of the three possible
`(status, progress)` traces (validation failures emit none). -/
theorem ingestTrace_shape (iev : IngestEvent) (job_id now : String) (ttl : Nat)
    (io : IngestOracle) :
    updatesOf (ingestion_handler iev job_id now ttl io).2 ∈ ingestShapes := by
  cases iev with
  | badJson => simp [ingestion_handler, updatesOf, ingestShapes]
  | parsed body =>
    unfold ingestion_handler
    by_cases h0 : truthyStr body.source_type = true
    case neg => simp [h0, updatesOf, ingestShapes]
    case pos =>
      simp only [h0, Bool.not_true, Bool.false_eq_true, if_false]
      by_cases hv : (!(body.source_type.getD "" == "ftp" ||
          body.source_type.getD "" == "http" || body.source_type.getD "" == "tcp" ||
          body.source_type.getD "" == "api")) = true
      · simp [hv, updatesOf, ingestShapes]
      · rw [if_neg (by simp_all)]
        have hcase : ∀ (r : Except String (String × String) × List Effect),
            updatesOf r.2 ∈ ingestShapes →
            updatesOf (match r.1 with
              | .ok (s3_key, _filename) =>
                ((.accepted job_id (body.source_type.getD "")
                    (body.table_name.getD "default") : IResp),
                 Effect.putJob
                   { job_id := job_id, created_at := now, updated_at := now,
                     status := .PENDING, source_type := body.source_type.getD "",
                     source_config := some (body.config.getD {}), progress := 0,
                     message := "Job created, waiting for processing", ttl := ttl } ::
                   r.2 ++ [Effect.invokeTransform job_id now s3_key
                     (body.table_name.getD "default")])
              | .error e =>
                ((.internalError ("Internal server error: " ++ e) : IResp),
                 Effect.putJob
                   { job_id := job_id, created_at := now, updated_at := now,
                     status := .PENDING, source_type := body.source_type.getD "",
                     source_config := some (body.config.getD {}), progress := 0,
                     message := "Job created, waiting for processing", ttl := ttl } ::
                   r.2)).2 ∈ ingestShapes := by
          intro r hr
          rcases r with ⟨res, effs⟩
          rcases res with ⟨s3_key, fn⟩ | e <;>
            simpa [updatesOf, List.filterMap_append] using hr
        by_cases hftp : body.source_type.getD "" = "ftp"
        · rw [if_pos hftp]
          split
          · simp [updatesOf, ingestShapes]
          · exact hcase _ (ingest_from_ftp_trace _ _ _ _ _)
        · rw [if_neg hftp]
          by_cases hhttp : body.source_type.getD "" = "http"
          · rw [if_pos hhttp]
            split
            · simp [updatesOf, ingestShapes]
            · exact hcase _ (ingest_from_http_trace _ _ _ _ _)
          · rw [if_neg hhttp]
            by_cases htcp : body.source_type.getD "" = "tcp"
            · rw [if_pos htcp]
              split
              · simp [updatesOf, ingestShapes]
              · exact hcase _ (ingest_from_tcp_trace _ _ _ _ _)
            · rw [if_neg htcp]
              split
              · simp [updatesOf, ingestShapes]
              · exact hcase _ (ingest_from_http_trace _ _ _ _ _)

/-- Facts about every possible transform trace: the consecutive-progress
chain holds, `FAILED` updates have progress 0, a nonempty trace starts
at `(TRANSFORMING, 55)` and ends with a terminal status. -/
theorem transformShapes_facts :
    ∀ t ∈ transformShapes,
      t.Chain' stepOk ∧ (∀ u ∈ t, u.1 = JobStatus.FAILED → u.2 = 0) ∧
      t.head?.getD (JobStatus.TRANSFORMING, 55) = (JobStatus.TRANSFORMING, 55) ∧
      (t.getLast?.getD (JobStatus.FAILED, 0)).1.isTerminal = true := by
  intro t ht
  fin_cases ht <;>
    exact ⟨by simp [List.chain'_cons, stepOk, JobStatus.isTerminal], by decide, by decide,
      by decide⟩

/-- Facts about every possible ingestion trace: the chain holds, `FAILED`
updates have progress 0, and a nonempty trace ends either terminally or
at `(PROCESSING, 50)`. -/
theorem ingestShapes_facts :
    ∀ t ∈ ingestShapes,
      t.Chain' stepOk ∧ (∀ u ∈ t, u.1 = JobStatus.FAILED → u.2 = 0) ∧
      ((t.getLast?.getD (JobStatus.FAILED, 0)).1.isTerminal = true ∨
        t.getLast?.getD (JobStatus.FAILED, 0) = (JobStatus.PROCESSING, 50)) := by
  intro t ht
  fin_cases ht <;>
    exact ⟨by simp [List.chain'_cons, stepOk, JobStatus.isTerminal], by decide, by decide⟩

/-- The concatenated traces of any number of transform deliveries keep
the chain, keep `FAILED` at 0, and start (if nonempty) at
`(TRANSFORMING, 55)`. -/
theorem joined_transform_traces_ok (ts : List TransformCall) :
    ((ts.map transformTrace).join).Chain' stepOk ∧
    (∀ u ∈ (ts.map transformTrace).join, u.1 = JobStatus.FAILED → u.2 = 0) ∧
    (∀ u ∈ ((ts.map transformTrace).join).head?, u = (JobStatus.TRANSFORMING, 55)) := by
  induction ts with
  | nil => simp
  | cons c rest ih =>
    have hm := transformShapes_facts _ (transformTrace_shape c)
    simp only [List.map_cons, List.join_cons]
    refine ⟨?_, ?_, ?_⟩
    · rw [List.chain'_append]
      refine ⟨hm.1, ih.1, ?_⟩
      intro x hx y _hy
      rw [Option.mem_def] at hx
      have hterm := hm.2.2.2
      rw [hx, Option.getD_some] at hterm
      intro hx' _hy'
      rw [hterm] at hx'
      cases hx'
    · intro u hu
      rcases List.mem_append.mp hu with h | h
      · exact hm.2.1 u h
      · exact ih.2.1 u h
    · intro u hu
      cases hc : transformTrace c with
      | nil =>
        rw [hc, List.nil_append] at hu
        exact ih.2.2 u hu
      | cons a l =>
        rw [hc, List.cons_append, List.head?_cons, Option.mem_some_iff] at hu
        have ha := hm.2.2.1
        rw [hc, List.head?_cons, Option.getD_some] at ha
        subst hu
        exact ha

/-- C7: Across the whole update history of a job — one ingestion
invocation followed by any number of (re)delivered transform
invocations, under every oracle outcome — progress never decreases
between two successive updates that both carry a non-terminal status,
and every update that writes `FAILED` writes progress exactly 0. -/
theorem progress_monotone_nonterminal_failed_zero
    (iev : IngestEvent) (job_id now : String) (ttl : Nat) (io : IngestOracle)
    (ts : List TransformCall) :
    progressOk (jobHistory iev job_id now ttl io ts) := by
  unfold jobHistory progressOk
  have hing := ingestShapes_facts _ (ingestTrace_shape iev job_id now ttl io)
  have hj := joined_transform_traces_ok ts
  constructor
  · rw [List.chain'_append]
    refine ⟨hing.1, hj.1, ?_⟩
    intro x hx y hy
    rw [Option.mem_def] at hx
    have hlast := hing.2.2
    rw [hx, Option.getD_some] at hlast
    have hhead := hj.2.2 y hy
    rcases hlast with hterm | h50
    · intro hx' _hy'
      rw [hterm] at hx'
      cases hx'
    · intro _ _
      rw [h50, hhead]
      norm_num
  · intro u hu
    rcases List.mem_append.mp hu with h | h
    · exact hing.2.1 u h
    · exact hj.2.1 u h

end DataBridge
